import Mathlib

/-!
Verification development for the modular_framework repository.

Part I embeds the `DataTable` React component
(`src/frontend/src/components/library/DataTable/DataTable.jsx`):
its sorting comparator, filtering, pagination and the state updates
performed by its handlers.

Part II models the Event Communication System (Validator, Event Store,
Subscription Registry, Dispatcher, Publisher façade, Query Service).
The repository ships only the database schema, documentation and the
frontend consumers of this subsystem; its server implementation is not
among the source files, so those definitions are modelled from the
specification text and are marked as such.
-/

/- ========================================================================
   Part I: DataTable (DataTable.jsx)
   ======================================================================== -/

/-- A JavaScript cell value as DataTable handles it: `null`/`undefined`
(collapsed, since the component treats them identically), numbers
(modelled as integers), strings and booleans. -/
inductive JsValue
  | vNull
  | vNum (n : Int)
  | vStr (s : String)
  | vBool (b : Bool)
deriving DecidableEq, Repr

/-- `String(value)` for a non-null value, as used by the comparator and the
filter (`String(value).toLowerCase()`). -/
def jsString : JsValue → String
  | .vNull => "null"
  | .vNum n => toString n
  | .vStr s => s
  | .vBool b => if b then "true" else "false"

/-- JavaScript `toLowerCase()`, character by character. -/
def jsToLower (s : String) : String := String.mk (s.data.map Char.toLower)

/-- JavaScript `trim()`: strip leading and trailing whitespace. -/
def jsTrim (s : String) : String :=
  String.mk (((s.data.dropWhile Char.isWhitespace).reverse.dropWhile
    Char.isWhitespace).reverse)

/-- Code-point lexicographic comparison, the model of `localeCompare`. -/
def charLexOrd : List Char → List Char → Ordering
  | [], [] => .eq
  | [], _ :: _ => .lt
  | _ :: _, [] => .gt
  | a :: as, b :: bs =>
    match compare a b with
    | .eq => charLexOrd as bs
    | o => o

/-- A table row: an association from column ids to cell values.
`row[column.id]` on a missing key yields `undefined`, which the component
treats exactly like `null`, so lookup defaults to `vNull`. -/
abbrev Row : Type := List (String × JsValue)

/-- `row[col]` with the null/undefined collapse. -/
def rowGet (r : Row) (col : String) : JsValue :=
  match r.lookup col with
  | some v => v
  | none => .vNull

/-- Sort direction, `'asc' | 'desc'`. -/
inductive SortDir
  | asc
  | desc
deriving DecidableEq, Repr

/-- Ordering → JS comparator sign. -/
def ordInt : Ordering → Int
  | .lt => -1
  | .eq => 0
  | .gt => 1

/-- The comparator passed to `Array.prototype.sort` in `sortData`
(DataTable.jsx lines 85–109): nulls first in ascending mode, numeric
difference for number pairs, otherwise lower-cased string comparison. -/
def cmpRows (col : String) (dir : SortDir) (a b : Row) : Int :=
  let aValue := rowGet a col
  let bValue := rowGet b col
  if aValue = .vNull then (if dir = .asc then -1 else 1)
  else if bValue = .vNull then (if dir = .asc then 1 else -1)
  else
    match aValue, bValue with
    | .vNum x, .vNum y => if dir = .asc then x - y else y - x
    | _, _ =>
      let aString := jsToLower (jsString aValue)
      let bString := jsToLower (jsString bValue)
      if dir = .asc then ordInt (charLexOrd aString.data bString.data)
      else ordInt (charLexOrd bString.data aString.data)

/-- Insert `x` into `l` keeping elements that compare `≤ 0` ahead of it. -/
def insertSorted (le : α → α → Bool) (x : α) : List α → List α
  | [] => [x]
  | y :: ys => if le x y then x :: y :: ys else y :: insertSorted le x ys

/-- A comparison sort modelling `Array.prototype.sort` with a comparator:
the result is a reordering of the input consistent with the comparator. -/
def sortByCmp (le : α → α → Bool) : List α → List α
  | [] => []
  | x :: xs => insertSorted le x (sortByCmp le xs)

/-- The component state relevant to sorting, filtering and pagination
(DataTable.jsx lines 48–53): `sortColumn` (the empty string is the falsy
default), `sortDirection`, `page`, `rowsPerPage`, `filterText`, the prop
`data`, the derived `filteredData`, and the column ids. -/
structure TableState where
  sortColumn : String
  sortDirection : SortDir
  page : Nat
  rowsPerPage : Nat
  filterText : String
  data : List Row
  filteredData : List Row
  columns : List String
deriving DecidableEq, Repr

/-- Substring test on lowered strings: `String(value).toLowerCase().includes(searchTerm)`. -/
def strIncludes (hay needle : String) : Bool :=
  hay.data.tails.any (fun t => needle.data.isPrefixOf t)

/-- The row filter from the `useEffect` (DataTable.jsx lines 62–69): a row
passes when some column holds a non-null value whose string form contains
the lowered search term. -/
def filterRows (columns : List String) (txt : String) (data : List Row) : List Row :=
  let searchTerm := jsToLower txt
  data.filter (fun row =>
    columns.any (fun c =>
      match rowGet row c with
      | .vNull => false
      | v => strIncludes (jsToLower (jsString v)) searchTerm))

/-- `sortData` (DataTable.jsx lines 82–110): identity when no sort column is
set, otherwise a comparator sort of a copy of the input. -/
def sortData (st : TableState) (dataToSort : List Row) : List Row :=
  if st.sortColumn = "" then dataToSort
  else sortByCmp (fun a b => cmpRows st.sortColumn st.sortDirection a b ≤ 0) dataToSort

/-- The state update caused by typing in the search box: `setFilterText`
followed by the `useEffect` (DataTable.jsx lines 56–73). A blank (all
whitespace) text restores `filteredData := data` and returns early without
touching `page`; otherwise the rows are filtered and `page` is reset to 0. -/
def handleFilterChange (st : TableState) (txt : String) : TableState :=
  if jsTrim txt = "" then
    { st with filterText := txt, filteredData := st.data }
  else
    { st with filterText := txt,
              filteredData := filterRows st.columns txt st.data,
              page := 0 }

/-- `handleChangeRowsPerPage` (DataTable.jsx lines 117–120). -/
def handleChangeRowsPerPage (st : TableState) (v : Nat) : TableState :=
  { st with rowsPerPage := v, page := 0 }

/-- `handleChangePage` (DataTable.jsx lines 113–115). -/
def handleChangePage (st : TableState) (newPage : Nat) : TableState :=
  { st with page := newPage }

/-- `getCurrentPageData` (DataTable.jsx lines 128–131):
`sortData(filteredData).slice(page*rowsPerPage, page*rowsPerPage + rowsPerPage)`. -/
def getCurrentPageData (st : TableState) : List Row :=
  ((sortData st st.filteredData).drop (st.page * st.rowsPerPage)).take st.rowsPerPage

/-- All rows whose sort-column value is null come before all rows whose
value is non-null. -/
def NullsFirst (col : String) (l : List Row) : Prop :=
  ∃ l₁ l₂, l = l₁ ++ l₂ ∧ (∀ r ∈ l₁, rowGet r col = .vNull) ∧
    (∀ r ∈ l₂, rowGet r col ≠ .vNull)

/- ========================================================================
   Part II: Event Communication System (modelled from the spec)
   ======================================================================== -/

/-- Modelled from the spec: the publish-path error taxonomy (§7) of the
Event Communication System, whose server implementation is not among the
repository's source files. -/
inductive BusError
  | ValidationError
  | CausationCycleError
  | UnknownModuleError
  | PersistenceError
deriving DecidableEq, Repr

/-- Modelled from the spec: a candidate event submitted to `publish`
(§3, §4.5); `event_id` is server-assigned when absent, identifiers are
opaque and modelled as naturals, the payload is an opaque serialized blob
modelled as its string form. -/
structure CandidateEvent where
  event_id : Option Nat
  event_type : String
  source_module_id : String
  priority : Option String
  correlation_id : Option Nat
  causation_id : Option Nat
  payload : String
deriving DecidableEq, Repr

/-- Modelled from the spec: a persisted Event (§3) with its server-assigned
`sequence` and `timestamp`, defaulted `priority` and `correlation_id`. -/
structure PersistedEvent where
  event_id : Nat
  sequence : Nat
  event_type : String
  source_module_id : String
  priority : String
  correlation_id : Nat
  causation_id : Option Nat
  payload : String
  timestamp : Nat
deriving DecidableEq, Repr

/-- The four allowed priority values (§3, §4.1 check 2). -/
def allowedPriorities : List String := ["low", "normal", "high", "critical"]

/-- Allowed `event_type` characters: letters, digits, `.`, `_` (§4.1 check 1). -/
def validChar (c : Char) : Bool :=
  c.isAlpha || c.isDigit || c = '.' || c = '_'

/-- The configured maximum payload size (§4.1 check 4), a model constant. -/
def maxPayloadSize : Nat := 65536

/-- Modelled from the spec: check 2 of `validate` (§4.1) — the priority,
if present, is one of the four allowed values. -/
def priorityOk : Option String → Bool
  | none => true
  | some p => allowedPriorities.contains p

/-- Modelled from the spec: `validate(candidate)` (§4.1), the fail-fast
check sequence of the Event Schema & Validator, absent from the source
files. Purely functional; every failure is a `ValidationError`. -/
def validate (c : CandidateEvent) : Except BusError CandidateEvent :=
  if c.event_type.data.isEmpty then .error .ValidationError
  else if !(c.event_type.data.all validChar) then .error .ValidationError
  else if !(priorityOk c.priority) then .error .ValidationError
  else if c.source_module_id.data.isEmpty then .error .ValidationError
  else if c.payload.data.length > maxPayloadSize then .error .ValidationError
  else .ok c

/-- Modelled from the spec: the Event Store (§4.2), an append-only record
with a sequence counter (the single serialization point) and a fresh-id
counter for server-assigned `event_id`s. -/
structure EventStore where
  events : List PersistedEvent
  nextSeq : Nat
  nextId : Nat
deriving DecidableEq, Repr

/-- The empty store. -/
def EventStore.empty : EventStore := ⟨[], 0, 0⟩

/-- `get(event_id)` (§4.2): the first persisted event with that id. -/
def EventStore.get (s : EventStore) (id : Nat) : Option PersistedEvent :=
  s.events.find? (fun e => e.event_id = id)

/-- The bounded depth up to which the store resolves causation chains
(§4.2), a model constant. -/
def maxChainDepth : Nat := 100

/-- Modelled from the spec: the causation chain (§4.2) starting at `id`,
walking `causation_id` backwards through stored events up to the fuel. -/
def causationChain (s : EventStore) : Nat → Nat → List Nat
  | 0, _ => []
  | fuel + 1, id =>
    id :: (match s.get id with
           | some e =>
             match e.causation_id with
             | some c => causationChain s fuel c
             | none => []
           | none => [])

/-- Modelled from the spec: the causation-cycle guard (§4.2) — whether the
new event's would-be id occurs in the resolved causation chain. -/
def cycleDetected (s : EventStore) (c : CandidateEvent) (newId : Nat) : Bool :=
  match c.causation_id with
  | some cid => (causationChain s maxChainDepth cid).contains newId
  | none => false

/-- Modelled from the spec: `append(validEvent)` (§4.2). Assigns
`event_id` when absent, rejects a causation cycle before commit, assigns
the next `sequence` and the server timestamp, defaults `priority` to
`normal` and `correlation_id` to the event's own id, and appends. -/
def EventStore.append (s : EventStore) (now : Nat) (c : CandidateEvent) :
    Except BusError (PersistedEvent × EventStore) :=
  let newId := c.event_id.getD s.nextId
  if cycleDetected s c newId then .error .CausationCycleError
  else
    let pe : PersistedEvent :=
      { event_id := newId
        sequence := s.nextSeq
        event_type := c.event_type
        source_module_id := c.source_module_id
        priority := c.priority.getD "normal"
        correlation_id := c.correlation_id.getD newId
        causation_id := c.causation_id
        payload := c.payload
        timestamp := now }
    .ok (pe, { events := s.events ++ [pe]
               nextSeq := s.nextSeq + 1
               nextId := if c.event_id.isSome then s.nextId else s.nextId + 1 })

/-- Modelled from the spec: a query filter (§4.2): `event_type` exact,
`source_module_id`, `priority`, inclusive `start_time`/`end_time` over
`timestamp`, `correlation_id`; absent fields do not constrain. -/
structure EventFilter where
  event_type : Option String
  source_module_id : Option String
  priority : Option String
  start_time : Option Nat
  end_time : Option Nat
  correlation_id : Option Nat
deriving DecidableEq, Repr

/-- The filter that constrains nothing. -/
def EventFilter.empty : EventFilter := ⟨none, none, none, none, none, none⟩

/-- Whether a persisted event satisfies every present filter field. -/
def matchesFilter (f : EventFilter) (e : PersistedEvent) : Bool :=
  (match f.event_type with | none => true | some t => e.event_type = t) &&
  (match f.source_module_id with | none => true | some m => e.source_module_id = m) &&
  (match f.priority with | none => true | some p => e.priority = p) &&
  (match f.start_time with | none => true | some a => a ≤ e.timestamp) &&
  (match f.end_time with | none => true | some b => e.timestamp ≤ b) &&
  (match f.correlation_id with | none => true | some k => e.correlation_id = k)

/-- Modelled from the spec: `query(filter)` (§4.2) before pagination —
the persisted events satisfying the filter, ordered by `timestamp`
descending (the default ordering). -/
def EventStore.query (s : EventStore) (f : EventFilter) : List PersistedEvent :=
  sortByCmp (fun a b => decide (b.timestamp ≤ a.timestamp))
    (s.events.filter (matchesFilter f))

/-- Modelled from the spec: a Subscription record (§3, §4.3). -/
structure Subscription where
  subscription_id : Nat
  event_type : String
  module_id : String
  callback_url : String
  is_active : Bool
  created_at : Nat
deriving DecidableEq, Repr

/-- Modelled from the spec: the Subscription Registry (§4.3); `subs` is in
registration order. -/
structure Registry where
  subs : List Subscription
  nextSubId : Nat
deriving DecidableEq, Repr

/-- The empty registry. -/
def Registry.empty : Registry := ⟨[], 0⟩

/-- Modelled from the spec: the matching rule (§4.3): exact equality, or a
segment-prefix wildcard — `user.*` matches every `event_type` beginning
with `user.`. -/
def matchesPattern (pat et : String) : Bool :=
  match pat.data.reverse with
  | '*' :: '.' :: _ => pat.data.dropLast.isPrefixOf et.data
  | _ => pat.data = et.data

/-- Modelled from the spec: `register(subscription)` (§4.3), creating an
active subscription with a fresh id at the end of the registration order. -/
def Registry.register (r : Registry) (et mid cb : String) (now : Nat) :
    Nat × Registry :=
  (r.nextSubId,
   { subs := r.subs ++ [{ subscription_id := r.nextSubId
                          event_type := et
                          module_id := mid
                          callback_url := cb
                          is_active := true
                          created_at := now }]
     nextSubId := r.nextSubId + 1 })

/-- Modelled from the spec: toggling a subscription's `is_active` flag
(§3 lifecycle, §4.3 `deactivate`); never physically deletes. -/
def Registry.setActive (r : Registry) (sid : Nat) (b : Bool) : Registry :=
  { r with subs := r.subs.map (fun s =>
      if s.subscription_id = sid then { s with is_active := b } else s) }

/-- Modelled from the spec: `activeSubscribersFor(event_type)` (§4.3) —
the matching subscriptions with `is_active = true`, in registration
order. -/
def activeSubscribersFor (r : Registry) (et : String) : List Subscription :=
  r.subs.filter (fun s => s.is_active && matchesPattern s.event_type et)

/-- The configured maximum delivery attempt count (§4.4 step 3), a model
constant. -/
def maxAttempts : Nat := 5

/-- Outcome of delivering one event to one subscriber (§4.4): delivered on
some attempt, or dead-lettered after exhausting retries. -/
inductive DeliveryResult
  | delivered (attempt : Nat)
  | deadLettered
deriving DecidableEq, Repr

/-- One subscriber's delivery with retries: the environment oracle
`outcome sid k` tells whether attempt `k` to subscriber `sid` succeeds;
the first successful attempt below the maximum delivers, otherwise the
pair is dead-lettered (§4.4 steps 3–4). -/
def attemptDelivery (outcome : Nat → Nat → Bool) (sid : Nat) : DeliveryResult :=
  match (List.range maxAttempts).find? (fun k => outcome sid k) with
  | some k => .delivered k
  | none => .deadLettered

/-- Modelled from the spec: `dispatch(persistedEvent)` (§4.4) — resolve the
active subscribers and attempt delivery to each independently; returns the
per-subscription results. -/
def dispatch (r : Registry) (outcome : Nat → Nat → Bool) (e : PersistedEvent) :
    List (Nat × DeliveryResult) :=
  (activeSubscribersFor r e.event_type).map
    (fun s => (s.subscription_id, attemptDelivery outcome s.subscription_id))

/-- Modelled from the spec: the bus (§9 design note: an explicit context
object holding the Store, the Registry and the dead-letter records). -/
structure Bus where
  store : EventStore
  registry : Registry
  deadLetters : List (Nat × Nat)
deriving DecidableEq, Repr

/-- The empty bus. -/
def Bus.empty : Bus := ⟨EventStore.empty, Registry.empty, []⟩

/-- Modelled from the spec: the Publisher façade `publish` (§4.5):
validate, then durably append, then hand the persisted event to the
Dispatcher; the call's result is fixed at persistence, delivery results
are recorded (dead letters) but never surfaced. Returns the publish
result, the next bus state, and the per-subscription dispatch results. -/
def publish (outcome : Nat → Nat → Bool) (now : Nat) (b : Bus)
    (c : CandidateEvent) :
    Except BusError PersistedEvent × Bus × List (Nat × DeliveryResult) :=
  match validate c with
  | .error e => (.error e, b, [])
  | .ok v =>
    match b.store.append now v with
    | .error e => (.error e, b, [])
    | .ok (pe, st) =>
      let results := dispatch b.registry outcome pe
      let dl := results.filterMap (fun p =>
        if p.2 = .deadLettered then some (pe.event_id, p.1) else none)
      (.ok pe,
       { store := st, registry := b.registry,
         deadLetters := b.deadLetters ++ dl },
       results)

/-- A system trace command: publish (with its delivery oracle), register a
subscription, or toggle one's active flag. -/
inductive Cmd
  | pub (now : Nat) (c : CandidateEvent) (outcome : Nat → Nat → Bool)
  | reg (et mid cb : String) (now : Nat)
  | setActive (sid : Nat) (b : Bool)

/-- The bus together with the log of every delivery attempt made:
`(event_id, subscription_id)` pairs, appended at dispatch time. -/
structure Sys where
  bus : Bus
  log : List (Nat × Nat)

/-- The initial system. -/
def Sys.empty : Sys := ⟨Bus.empty, []⟩

/-- One step of the system: a publish dispatches to the subscribers active
at that moment and logs those deliveries; registration and toggling touch
only the registry. -/
def stepSys (sys : Sys) : Cmd → Sys
  | .pub now c outcome =>
    match publish outcome now sys.bus c with
    | (.ok pe, b, results) =>
      { bus := b, log := sys.log ++ results.map (fun p => (pe.event_id, p.1)) }
    | (.error _, b, _) => { bus := b, log := sys.log }
  | .reg et mid cb now => { sys with bus := { sys.bus with registry := (sys.bus.registry.register et mid cb now).2 } }
  | .setActive sid b => { sys with bus := { sys.bus with registry := sys.bus.registry.setActive sid b } }

/-- Running a trace. -/
def runSys (sys : Sys) (t : List Cmd) : Sys := t.foldl stepSys sys

/-- A command whose candidate (if any) leaves `event_id` to the server. -/
def serverAssigned : Cmd → Prop
  | .pub _ c _ => c.event_id = none
  | _ => True

/-- Sequence well-formedness: every persisted sequence is below the
store's sequence counter. -/
def SeqWF (s : EventStore) : Prop :=
  ∀ e ∈ s.events, e.sequence < s.nextSeq

/-- Identifier well-formedness: every persisted event id is below the
store's fresh-id counter. -/
def IdWF (s : EventStore) : Prop :=
  ∀ e ∈ s.events, e.event_id < s.nextId

/-- Registry well-formedness: subscription ids are pairwise distinct. -/
def RegistryWF (r : Registry) : Prop :=
  r.subs.Pairwise (fun a b => a.subscription_id ≠ b.subscription_id)

/-- Log well-formedness: every logged delivery's event id is below the
store's fresh-id counter. -/
def LogWF (sys : Sys) : Prop :=
  ∀ p ∈ sys.log, p.1 < sys.bus.store.nextId

/- ========================================================================
   Helper lemmas
   ======================================================================== -/

theorem insertSorted_perm (le : α → α → Bool) (x : α) (l : List α) :
    (insertSorted le x l).Perm (x :: l) := by
  induction l with
  | nil => simp [insertSorted]
  | cons y ys ih =>
    by_cases h : le x y
    · simp [insertSorted, h]
    · simp only [insertSorted, h, Bool.false_eq_true, if_false]
      exact (ih.cons y).trans (List.Perm.swap x y ys)

theorem sortByCmp_perm (le : α → α → Bool) (l : List α) :
    (sortByCmp le l).Perm l := by
  induction l with
  | nil => simp [sortByCmp]
  | cons x xs ih => exact (insertSorted_perm le x _).trans (ih.cons x)

theorem mem_insertSorted {le : α → α → Bool} {x a : α} {l : List α} :
    a ∈ insertSorted le x l ↔ a = x ∨ a ∈ l := by
  rw [(insertSorted_perm le x l).mem_iff, List.mem_cons]

theorem insertSorted_of_le (le : α → α → Bool) (x : α) (l : List α)
    (h : ∀ y ∈ l, le x y = true) : insertSorted le x l = x :: l := by
  cases l with
  | nil => rfl
  | cons y ys => simp [insertSorted, h y (by simp)]

theorem cmpRows_null_left {col : String} {dir : SortDir} {a : Row} (b : Row)
    (h : rowGet a col = .vNull) :
    cmpRows col dir a b = (if dir = .asc then -1 else 1) := by
  simp [cmpRows, h]

theorem cmpRows_null_right {col : String} {dir : SortDir} {a b : Row}
    (ha : rowGet a col ≠ .vNull) (hb : rowGet b col = .vNull) :
    cmpRows col dir a b = (if dir = .asc then 1 else -1) := by
  simp [cmpRows, ha, hb]

theorem insertSorted_nulls_split (col : String) (x : Row) (l₁ l₂ : List Row)
    (h₁ : ∀ r ∈ l₁, rowGet r col = .vNull)
    (h₂ : ∀ r ∈ l₂, rowGet r col ≠ .vNull)
    (hx : rowGet x col ≠ .vNull) :
    NullsFirst col
      (insertSorted (fun a b => cmpRows col .asc a b ≤ 0) x (l₁ ++ l₂)) := by
  induction l₁ with
  | nil =>
    refine ⟨[], insertSorted (fun a b => cmpRows col .asc a b ≤ 0) x l₂,
      by simp, by simp, ?_⟩
    intro r hr
    rcases mem_insertSorted.mp hr with h | h
    · exact h ▸ hx
    · exact h₂ r h
  | cons a l₁' ih =>
    have ha : rowGet a col = .vNull := h₁ a (by simp)
    have hgt : ¬ (cmpRows col .asc x a ≤ 0) := by
      rw [cmpRows_null_right hx ha]
      simp
    simp only [List.cons_append, insertSorted, decide_eq_true_eq]
    rw [if_neg (by simpa using hgt)]
    obtain ⟨m₁, m₂, heq, hm₁, hm₂⟩ := ih (fun r hr => h₁ r (by simp [hr]))
    refine ⟨a :: m₁, m₂, by simp [heq], ?_, hm₂⟩
    intro r hr
    rcases List.mem_cons.mp hr with h | h
    · exact h ▸ ha
    · exact hm₁ r h

theorem nullsFirst_sortByCmp (col : String) (l : List Row) :
    NullsFirst col (sortByCmp (fun a b => cmpRows col .asc a b ≤ 0) l) := by
  induction l with
  | nil => exact ⟨[], [], rfl, by simp, by simp⟩
  | cons x xs ih =>
    obtain ⟨l₁, l₂, heq, h₁, h₂⟩ := ih
    by_cases hx : rowGet x col = .vNull
    · rw [sortByCmp, heq, insertSorted_of_le]
      · refine ⟨x :: l₁, l₂, by simp, ?_, h₂⟩
        intro r hr
        rcases List.mem_cons.mp hr with h | h
        · exact h ▸ hx
        · exact h₁ r h
      · intro y hy
        rw [decide_eq_true_eq, cmpRows_null_left y hx]
        simp
    · rw [sortByCmp, heq]
      exact insertSorted_nulls_split col x l₁ l₂ h₁ h₂ hx

/- ========================================================================
   Example data for witnesses
   ======================================================================== -/

/-- A row with name "beta" and a numeric age. -/
def dtRowA : Row := [("name", .vStr "beta"), ("age", .vNum 3)]

/-- A row with a null name. -/
def dtRowB : Row := [("name", .vNull), ("age", .vNum 1)]

/-- A row with name "alpha". -/
def dtRowC : Row := [("name", .vStr "alpha"), ("age", .vNum 2)]

/-- A concrete table state sorted ascending by name. -/
def dtStateSorted : TableState :=
  { sortColumn := "name", sortDirection := .asc, page := 0, rowsPerPage := 10,
    filterText := "", data := [dtRowA, dtRowB, dtRowC],
    filteredData := [dtRowA, dtRowB, dtRowC], columns := ["name", "age"] }

/-- A concrete table state on page 1 with an active filter "a". -/
def dtStateFiltered : TableState :=
  { sortColumn := "", sortDirection := .asc, page := 1, rowsPerPage := 5,
    filterText := "a", data := [dtRowA, dtRowB, dtRowC],
    filteredData := [dtRowA, dtRowC], columns := ["name", "age"] }

/- ========================================================================
   Claim theorems
   ======================================================================== -/

/-- C10: `sortData` is pure with respect to its argument: it returns a
permutation of the input list; when no sort column is set (the falsy
default `""`) it returns the input unchanged; and when a sort column is
set and the direction is ascending, every row whose sort-column value is
null/undefined is ordered before every row with a non-null value. The
embedding is purely functional, so the input list is never mutated. -/
theorem sortData_pure_permutation (st : TableState) (l : List Row) :
    (sortData st l).Perm l ∧
    (st.sortColumn = "" → sortData st l = l) ∧
    (st.sortColumn ≠ "" → st.sortDirection = .asc →
      NullsFirst st.sortColumn (sortData st l)) := by
  refine ⟨?_, ?_, ?_⟩
  · unfold sortData
    split
    · exact List.Perm.refl l
    · exact sortByCmp_perm _ l
  · intro h
    simp [sortData, h]
  · intro h hdir
    simp only [sortData, if_neg h, hdir]
    exact nullsFirst_sortByCmp st.sortColumn l

/-- Witness for C10: the theorem applied at a concrete state and list. -/
theorem sortData_pure_permutation_witness :
    (sortData dtStateSorted [dtRowA, dtRowB, dtRowC]).Perm [dtRowA, dtRowB, dtRowC] ∧
    (dtStateSorted.sortColumn = "" →
      sortData dtStateSorted [dtRowA, dtRowB, dtRowC] = [dtRowA, dtRowB, dtRowC]) ∧
    (dtStateSorted.sortColumn ≠ "" → dtStateSorted.sortDirection = .asc →
      NullsFirst dtStateSorted.sortColumn (sortData dtStateSorted [dtRowA, dtRowB, dtRowC])) :=
  sortData_pure_permutation dtStateSorted [dtRowA, dtRowB, dtRowC]

/-- C9 counterexample: changing the filter text from `"a"` to the blank
string `""` takes the early-return branch of the `useEffect` and leaves the
page index at 1; the claim that changing the filter text resets the page
index to 0 is therefore false at this input. -/
theorem dataTable_filter_reset_counterexample :
    dtStateFiltered.filterText ≠ "" ∧
    (handleFilterChange dtStateFiltered "").filterText = "" ∧
    ¬ (handleFilterChange dtStateFiltered "").page = 0 := by
  refine ⟨by decide, ?_, ?_⟩ <;> simp [handleFilterChange, jsTrim, dtStateFiltered]

/-- C9 (amended): the rows rendered for the current page are the slice
`[page*rowsPerPage, page*rowsPerPage + rowsPerPage)` of the sorted filtered
data — a contiguous infix of it, of length at most `rowsPerPage`; changing
the filter text to a value with non-blank content resets the page index to
0 and refilters, changing it to a blank value restores the unfiltered data
and leaves the page index unchanged; changing the rows-per-page setting
resets the page index to 0. -/
theorem dataTable_pagination (st : TableState) (txt : String) (v : Nat) :
    getCurrentPageData st =
      ((sortData st st.filteredData).drop (st.page * st.rowsPerPage)).take st.rowsPerPage ∧
    getCurrentPageData st <:+: sortData st st.filteredData ∧
    (getCurrentPageData st).length ≤ st.rowsPerPage ∧
    (jsTrim txt ≠ "" → (handleFilterChange st txt).page = 0 ∧
      (handleFilterChange st txt).filteredData = filterRows st.columns txt st.data) ∧
    (jsTrim txt = "" → (handleFilterChange st txt).page = st.page ∧
      (handleFilterChange st txt).filteredData = st.data) ∧
    (handleChangeRowsPerPage st v).page = 0 ∧
    (handleChangeRowsPerPage st v).rowsPerPage = v := by
  refine ⟨rfl, ?_, ?_, ?_, ?_, rfl, rfl⟩
  · exact ((List.take_prefix _ _).isInfix).trans ((List.drop_suffix _ _).isInfix)
  · exact List.length_take_le _ _
  · intro h
    simp [handleFilterChange, if_neg h]
  · intro h
    simp [handleFilterChange, if_pos h]

/-- Witness for C9 (amended): the theorem applied at a concrete state,
filter text and rows-per-page value. -/
theorem dataTable_pagination_witness :
    getCurrentPageData dtStateFiltered =
      ((sortData dtStateFiltered dtStateFiltered.filteredData).drop
        (dtStateFiltered.page * dtStateFiltered.rowsPerPage)).take dtStateFiltered.rowsPerPage ∧
    getCurrentPageData dtStateFiltered <:+: sortData dtStateFiltered dtStateFiltered.filteredData ∧
    (getCurrentPageData dtStateFiltered).length ≤ dtStateFiltered.rowsPerPage ∧
    (jsTrim "b" ≠ "" → (handleFilterChange dtStateFiltered "b").page = 0 ∧
      (handleFilterChange dtStateFiltered "b").filteredData =
        filterRows dtStateFiltered.columns "b" dtStateFiltered.data) ∧
    (jsTrim "b" = "" → (handleFilterChange dtStateFiltered "b").page = dtStateFiltered.page ∧
      (handleFilterChange dtStateFiltered "b").filteredData = dtStateFiltered.data) ∧
    (handleChangeRowsPerPage dtStateFiltered 25).page = 0 ∧
    (handleChangeRowsPerPage dtStateFiltered 25).rowsPerPage = 25 :=
  dataTable_pagination dtStateFiltered "b" 25

/- ========================================================================
   Helper lemmas for the Event Store
   ======================================================================== -/

theorem append_ok_elim (s : EventStore) (now : Nat) (c : CandidateEvent)
    (pe : PersistedEvent) (s' : EventStore)
    (h : s.append now c = .ok (pe, s')) :
    pe.event_id = c.event_id.getD s.nextId ∧
    pe.sequence = s.nextSeq ∧
    pe.event_type = c.event_type ∧
    pe.source_module_id = c.source_module_id ∧
    pe.priority = c.priority.getD "normal" ∧
    pe.correlation_id = c.correlation_id.getD pe.event_id ∧
    pe.causation_id = c.causation_id ∧
    pe.payload = c.payload ∧
    pe.timestamp = now ∧
    s'.events = s.events ++ [pe] ∧
    s'.nextSeq = s.nextSeq + 1 ∧
    s'.nextId = (if c.event_id.isSome then s.nextId else s.nextId + 1) := by
  by_cases hcyc : cycleDetected s c (c.event_id.getD s.nextId) = true
  · simp only [EventStore.append, hcyc, if_true] at h
    exact Except.noConfusion h
  · rw [Bool.not_eq_true] at hcyc
    simp only [EventStore.append, hcyc, Bool.false_eq_true, if_false,
      Except.ok.injEq, Prod.mk.injEq] at h
    obtain ⟨h1, h2⟩ := h
    subst h1 h2
    exact ⟨rfl, rfl, rfl, rfl, rfl, rfl, rfl, rfl, rfl, rfl, rfl, rfl⟩

theorem get_append_fresh (l : List PersistedEvent) (pe : PersistedEvent)
    (n m : Nat) (hfresh : ∀ e ∈ l, e.event_id ≠ pe.event_id) :
    EventStore.get ⟨l ++ [pe], n, m⟩ pe.event_id = some pe := by
  unfold EventStore.get
  simp only [List.find?_append]
  have h1 : l.find? (fun e => e.event_id = pe.event_id) = none := by
    rw [List.find?_eq_none]
    intro e he
    simpa using hfresh e he
  rw [h1]
  simp

theorem get_append_preserved (l : List PersistedEvent) (pe ev : PersistedEvent)
    (n m n' m' : Nat) (i : Nat)
    (h : EventStore.get ⟨l, n, m⟩ i = some ev) :
    EventStore.get ⟨l ++ [pe], n', m'⟩ i = some ev := by
  unfold EventStore.get at h ⊢
  simp only [List.find?_append]
  simp only [EventStore.get] at h
  rw [h]
  rfl

theorem validate_ok_eq (c v : CandidateEvent) (h : validate c = .ok v) : v = c := by
  unfold validate at h
  split_ifs at h <;> simp_all

theorem publish_ok_elim (f : Nat → Nat → Bool) (now : Nat) (b : Bus)
    (c : CandidateEvent) (pe : PersistedEvent) (b' : Bus)
    (rs : List (Nat × DeliveryResult))
    (h : publish f now b c = (.ok pe, b', rs)) :
    validate c = .ok c ∧
    b.store.append now c = .ok (pe, b'.store) ∧
    b'.registry = b.registry ∧
    rs = dispatch b.registry f pe := by
  cases hv : validate c with
  | error e =>
    simp only [publish, hv] at h
    exact absurd h (by simp)
  | ok v =>
    have hvc : v = c := validate_ok_eq c v hv
    subst hvc
    cases ha : b.store.append now v with
    | error e =>
      simp only [publish, hv, ha] at h
      exact absurd h (by simp)
    | ok pes =>
      obtain ⟨pe0, st0⟩ := pes
      simp only [publish, hv, ha, Prod.mk.injEq, Except.ok.injEq] at h
      obtain ⟨h1, h2, h3⟩ := h
      subst h1 h3
      rw [← h2]
      exact ⟨rfl, rfl, rfl, rfl⟩

/- ========================================================================
   Demo data for Event System witnesses
   ======================================================================== -/

/-- A valid candidate event with every optional field absent. -/
def evCand : CandidateEvent :=
  { event_id := none, event_type := "user.created",
    source_module_id := "user-mgmt", priority := none, correlation_id := none,
    causation_id := none, payload := "p42" }

/-- The event the empty store persists for `evCand` at time 100. -/
def demoEvent : PersistedEvent :=
  { event_id := 0, sequence := 0, event_type := "user.created",
    source_module_id := "user-mgmt", priority := "normal", correlation_id := 0,
    causation_id := none, payload := "p42", timestamp := 100 }

/-- A store holding `demoEvent`. -/
def store1 : EventStore := ⟨[demoEvent], 1, 1⟩

/-- The event `store1` persists for `evCand` at time 101. -/
def demoEvent2 : PersistedEvent :=
  { event_id := 1, sequence := 1, event_type := "user.created",
    source_module_id := "user-mgmt", priority := "normal", correlation_id := 1,
    causation_id := none, payload := "p42", timestamp := 101 }

/-- The store after appending `demoEvent2` to `store1`. -/
def store2 : EventStore := ⟨[demoEvent, demoEvent2], 2, 2⟩

/-- A bus holding `store1` and no subscriptions. -/
def bus1 : Bus := ⟨store1, Registry.empty, []⟩

/-- The bus after publishing `evCand` on `bus1`. -/
def bus2 : Bus := ⟨store2, Registry.empty, []⟩

/-- A delivery oracle under which every attempt succeeds. -/
def allOk : Nat → Nat → Bool := fun _ _ => true

/- ========================================================================
   Claims C1, C2, C6
   ======================================================================== -/

/-- C1: every accepted publish persists an event whose `sequence` is
strictly greater than every previously assigned sequence, and the store's
sequence bound is maintained, so sequence assignment is strictly
monotonically increasing over the order of appends (the store's counter is
the single serialization point, so concurrent publishers are serialized
through it). -/
theorem publish_sequence_monotone (f : Nat → Nat → Bool) (now : Nat) (b : Bus)
    (c : CandidateEvent) (pe : PersistedEvent) (b' : Bus)
    (rs : List (Nat × DeliveryResult))
    (hwf : SeqWF b.store)
    (h : publish f now b c = (.ok pe, b', rs)) :
    (∀ e ∈ b.store.events, e.sequence < pe.sequence) ∧ SeqWF b'.store := by
  obtain ⟨-, ha, -, -⟩ := publish_ok_elim f now b c pe b' rs h
  obtain ⟨-, hseq, -, -, -, -, -, -, -, hev, hns, -⟩ :=
    append_ok_elim _ _ _ _ _ ha
  constructor
  · intro e he
    rw [hseq]
    exact hwf e he
  · intro e he
    rw [hev] at he
    rw [hns]
    rcases List.mem_append.mp he with h1 | h1
    · exact Nat.lt_succ_of_lt (hwf e h1)
    · rw [List.mem_singleton.mp h1, hseq]
      exact Nat.lt_succ_self _
/-- Witness for C1 at a concrete bus and candidate. -/
theorem publish_sequence_monotone_witness :
    (∀ e ∈ bus1.store.events, e.sequence < demoEvent2.sequence) ∧
    SeqWF bus2.store :=
  publish_sequence_monotone allOk 101 bus1 evCand demoEvent2 bus2 []
    (by unfold SeqWF; decide) (by rfl)

/-- C2: a successful append leaves every earlier `get` result intact (the
store only ever appends, so no field of a persisted event is mutated by
any operation), and `get` of the new event's id returns exactly the value
persisted (round-trip fidelity), provided the assigned id is fresh. -/
theorem get_roundtrip_immutable (s : EventStore) (now : Nat)
    (c : CandidateEvent) (pe : PersistedEvent) (s' : EventStore)
    (hfresh : ∀ e ∈ s.events, e.event_id ≠ c.event_id.getD s.nextId)
    (h : s.append now c = .ok (pe, s')) :
    s'.get pe.event_id = some pe ∧
    (∀ i ev, s.get i = some ev → s'.get i = some ev) ∧
    s'.events = s.events ++ [pe] := by
  obtain ⟨hid, -, -, -, -, -, -, -, -, hev, -, -⟩ :=
    append_ok_elim _ _ _ _ _ h
  obtain ⟨l', n', m'⟩ := s'
  obtain ⟨l, n, m⟩ := s
  simp only at hev
  subst hev
  refine ⟨?_, ?_, rfl⟩
  · exact get_append_fresh l pe n' m' (fun e he => hid ▸ hfresh e he)
  · intro i ev hgen
    exact get_append_preserved l pe ev n m n' m' i hgen
/-- Witness for C2 at a concrete store and candidate. -/
theorem get_roundtrip_immutable_witness :
    store2.get demoEvent2.event_id = some demoEvent2 ∧
    (∀ i ev, store1.get i = some ev → store2.get i = some ev) ∧
    store2.events = store1.events ++ [demoEvent2] :=
  get_roundtrip_immutable store1 101 evCand demoEvent2 store2
    (by decide) (by rfl)

/-- C6: a candidate published without a `correlation_id` is persisted with
`correlation_id` equal to its own server-assigned `event_id`, starting its
own correlation chain. -/
theorem correlation_defaults_to_event_id (f : Nat → Nat → Bool) (now : Nat)
    (b : Bus) (c : CandidateEvent) (pe : PersistedEvent) (b' : Bus)
    (rs : List (Nat × DeliveryResult))
    (hnone : c.correlation_id = none)
    (h : publish f now b c = (.ok pe, b', rs)) :
    pe.correlation_id = pe.event_id := by
  obtain ⟨-, ha, -, -⟩ := publish_ok_elim f now b c pe b' rs h
  obtain ⟨-, -, -, -, -, hcorr, -, -, -, -, -, -⟩ :=
    append_ok_elim _ _ _ _ _ ha
  rw [hcorr, hnone]
  rfl
/-- Witness for C6 at a concrete bus and candidate. -/
theorem correlation_defaults_to_event_id_witness :
    demoEvent2.correlation_id = demoEvent2.event_id :=
  correlation_defaults_to_event_id allOk 101 bus1 evCand demoEvent2 bus2 []
    (by decide) (by rfl)

/- ========================================================================
   Claims C4, C5, C3
   ======================================================================== -/

/-- A candidate event carrying the invalid priority `"urgent"`. -/
def evBadPriority : CandidateEvent :=
  { event_id := none, event_type := "user.created",
    source_module_id := "user-mgmt", priority := some "urgent",
    correlation_id := none, causation_id := none, payload := "p" }

/-- C4: a candidate whose priority is present but not among
{low, normal, high, critical} fails `publish` with a `ValidationError`;
the bus is unchanged, so the event is never persisted and is not
observable through `get` or `query` afterwards. -/
theorem invalid_priority_rejected (f : Nat → Nat → Bool) (now : Nat)
    (b : Bus) (c : CandidateEvent) (p : String)
    (hp : c.priority = some p)
    (hbad : allowedPriorities.contains p = false) :
    (publish f now b c).1 = .error .ValidationError ∧
    (publish f now b c).2.1 = b ∧
    (∀ i, ((publish f now b c).2.1).store.get i = b.store.get i) ∧
    (∀ flt, ((publish f now b c).2.1).store.query flt = b.store.query flt) := by
  have hpr : priorityOk c.priority = false := by
    rw [hp]
    exact hbad
  have hval : validate c = .error .ValidationError := by
    by_cases h1 : c.event_type.data.isEmpty <;>
      by_cases h2 : c.event_type.data.all validChar <;>
        simp [validate, h1, h2, hpr]
  have hpub : publish f now b c = (.error .ValidationError, b, []) := by
    simp only [publish, hval]
  rw [hpub]
  exact ⟨rfl, rfl, fun i => rfl, fun flt => rfl⟩
/-- Witness for C4 at the priority `"urgent"`. -/
theorem invalid_priority_rejected_witness :
    (publish allOk 100 bus1 evBadPriority).1 = .error .ValidationError ∧
    (publish allOk 100 bus1 evBadPriority).2.1 = bus1 ∧
    (∀ i, ((publish allOk 100 bus1 evBadPriority).2.1).store.get i =
      bus1.store.get i) ∧
    (∀ flt, ((publish allOk 100 bus1 evBadPriority).2.1).store.query flt =
      bus1.store.query flt) :=
  invalid_priority_rejected allOk 100 bus1 evBadPriority "urgent"
    (by rfl) (by decide)

/-- A candidate event whose `causation_id` is its own would-be id. -/
def evSelfCause : CandidateEvent :=
  { event_id := none, event_type := "user.created",
    source_module_id := "user-mgmt", priority := none, correlation_id := none,
    causation_id := some 0, payload := "p" }

/-- C5: a valid candidate whose causation chain (walked backwards through
stored events up to the bounded depth) contains the new event's own
would-be `event_id` is rejected by `publish` with `CausationCycleError`,
and the bus is left unchanged, so no such event ever becomes persisted
state. -/
theorem causation_cycle_rejected (f : Nat → Nat → Bool) (now : Nat)
    (b : Bus) (c : CandidateEvent) (cid : Nat)
    (hv : validate c = .ok c)
    (hcid : c.causation_id = some cid)
    (hcyc : (causationChain b.store maxChainDepth cid).contains
      (c.event_id.getD b.store.nextId) = true) :
    publish f now b c = (.error .CausationCycleError, b, []) := by
  have hdet : cycleDetected b.store c (c.event_id.getD b.store.nextId) = true := by
    unfold cycleDetected
    rw [hcid]
    exact hcyc
  have ha : b.store.append now c = .error .CausationCycleError := by
    simp only [EventStore.append, hdet, if_true]
  simp only [publish, hv, ha]
/-- Witness for C5: a direct self-referencing causation on the empty bus. -/
theorem causation_cycle_rejected_witness :
    publish allOk 100 Bus.empty evSelfCause =
      (.error .CausationCycleError, Bus.empty, []) :=
  causation_cycle_rejected allOk 100 Bus.empty evSelfCause 0
    (by rfl) (by rfl) (by rfl)

theorem append_get_new (s : EventStore) (now : Nat) (c : CandidateEvent)
    (pe : PersistedEvent) (s' : EventStore)
    (hfresh : ∀ e ∈ s.events, e.event_id ≠ c.event_id.getD s.nextId)
    (h : s.append now c = .ok (pe, s')) :
    s'.get pe.event_id = some pe := by
  obtain ⟨hid, -, -, -, -, -, -, -, -, hev, -, -⟩ :=
    append_ok_elim _ _ _ _ _ h
  obtain ⟨l', n', m'⟩ := s'
  obtain ⟨l, n, m⟩ := s
  simp only at hev
  subst hev
  exact get_append_fresh l pe n' m' (fun e he => hid ▸ hfresh e he)

/-- A registry with two active subscriptions matching `user.created`
(one exact, one wildcard) and one inactive exact subscription. -/
def subA : Subscription :=
  { subscription_id := 0, event_type := "user.created",
    module_id := "analytics", callback_url := "cb-a", is_active := true,
    created_at := 50 }

/-- The wildcard subscription. -/
def subB : Subscription :=
  { subscription_id := 1, event_type := "user.*", module_id := "audit",
    callback_url := "cb-b", is_active := true, created_at := 60 }

/-- The inactive subscription. -/
def subC : Subscription :=
  { subscription_id := 2, event_type := "user.created", module_id := "mail",
    callback_url := "cb-c", is_active := false, created_at := 70 }

/-- A registry holding the three demo subscriptions in registration order. -/
def reg3 : Registry := ⟨[subA, subB, subC], 3⟩

/-- A bus with one stored event and the three demo subscriptions. -/
def bus3 : Bus := ⟨store1, reg3, []⟩

/-- A delivery oracle under which subscriber 0 fails every attempt and
every other subscriber succeeds immediately. -/
def failSubZero : Nat → Nat → Bool := fun sid _ => sid ≠ 0

/-- C3: `publish` succeeds exactly when validation and persistence
succeed — its result, the resulting store and the resulting registry are
identical under any two delivery oracles, so no delivery failure (up to
and including dead-lettering every attempt) ever changes the publish
result or the persisted state; each subscriber's delivery result depends
only on its own delivery outcomes, never on another subscriber's; and a
successfully published event stays retrievable via `get` whatever the
dispatch outcome. -/
theorem publish_independent_of_delivery (f g : Nat → Nat → Bool) (now : Nat)
    (b : Bus) (c : CandidateEvent) :
    (publish f now b c).1 = (publish g now b c).1 ∧
    ((publish f now b c).2.1).store = ((publish g now b c).2.1).store ∧
    ((publish f now b c).2.1).registry = ((publish g now b c).2.1).registry ∧
    (∀ sid, (∀ k, f sid k = g sid k) →
      attemptDelivery f sid = attemptDelivery g sid) ∧
    (∀ pe b' rs, publish f now b c = (.ok pe, b', rs) →
      (∀ e ∈ b.store.events, e.event_id ≠ c.event_id.getD b.store.nextId) →
      b'.store.get pe.event_id = some pe) := by
  have hmain : (publish f now b c).1 = (publish g now b c).1 ∧
      ((publish f now b c).2.1).store = ((publish g now b c).2.1).store ∧
      ((publish f now b c).2.1).registry = ((publish g now b c).2.1).registry := by
    cases hv : validate c with
    | error e => simp [publish, hv]
    | ok v =>
      cases ha : b.store.append now v with
      | error e => simp [publish, hv, ha]
      | ok pes =>
        obtain ⟨pe0, st0⟩ := pes
        simp [publish, hv, ha]
  refine ⟨hmain.1, hmain.2.1, hmain.2.2, ?_, ?_⟩
  · intro sid hfg
    unfold attemptDelivery
    rw [funext hfg]
  · intro pe b' rs h hfresh
    obtain ⟨-, ha, -, -⟩ := publish_ok_elim f now b c pe b' rs h
    exact append_get_new b.store now c pe b'.store hfresh ha
/-- Witness for C3: the same publish under an all-failing-for-subscriber-0
oracle and an all-succeeding oracle. -/
theorem publish_independent_of_delivery_witness :
    (publish failSubZero 101 bus3 evCand).1 = (publish allOk 101 bus3 evCand).1 ∧
    ((publish failSubZero 101 bus3 evCand).2.1).store =
      ((publish allOk 101 bus3 evCand).2.1).store ∧
    ((publish failSubZero 101 bus3 evCand).2.1).registry =
      ((publish allOk 101 bus3 evCand).2.1).registry ∧
    (∀ sid, (∀ k, failSubZero sid k = allOk sid k) →
      attemptDelivery failSubZero sid = attemptDelivery allOk sid) ∧
    (∀ pe b' rs, publish failSubZero 101 bus3 evCand = (.ok pe, b', rs) →
      (∀ e ∈ bus3.store.events,
        e.event_id ≠ evCand.event_id.getD bus3.store.nextId) →
      b'.store.get pe.event_id = some pe) :=
  publish_independent_of_delivery failSubZero allOk 101 bus3 evCand

/- ========================================================================
   Claim C8
   ======================================================================== -/

/-- `store2` with its two events in the opposite insertion order. -/
def store2perm : EventStore := ⟨[demoEvent2, demoEvent], 2, 2⟩

/-- C8: a query constrained only by `start_time`/`end_time` returns
exactly the persisted events whose `timestamp` lies in the inclusive
range `[start_time, end_time]`, and stores holding the same events in any
insertion order yield the same result set (a permutation of one
another). -/
theorem query_time_range (s s₂ : EventStore) (a b : Nat) (e : PersistedEvent)
    (hperm : s.events.Perm s₂.events) :
    (e ∈ s.query ⟨none, none, none, some a, some b, none⟩ ↔
      e ∈ s.events ∧ a ≤ e.timestamp ∧ e.timestamp ≤ b) ∧
    (s.query ⟨none, none, none, some a, some b, none⟩).Perm
      (s₂.query ⟨none, none, none, some a, some b, none⟩) := by
  constructor
  · rw [EventStore.query, (sortByCmp_perm _ _).mem_iff, List.mem_filter]
    simp [matchesFilter]
  · have h1 : (s.events.filter
        (matchesFilter ⟨none, none, none, some a, some b, none⟩)).Perm
        (s₂.events.filter
          (matchesFilter ⟨none, none, none, some a, some b, none⟩)) :=
      hperm.filter _
    exact (sortByCmp_perm _ _).trans (h1.trans (sortByCmp_perm _ _).symm)
/-- Witness for C8 on a two-event store and its reversal. -/
theorem query_time_range_witness :
    (demoEvent ∈ store2.query ⟨none, none, none, some 100, some 100, none⟩ ↔
      demoEvent ∈ store2.events ∧ 100 ≤ demoEvent.timestamp ∧
        demoEvent.timestamp ≤ 100) ∧
    (store2.query ⟨none, none, none, some 100, some 100, none⟩).Perm
      (store2perm.query ⟨none, none, none, some 100, some 100, none⟩) :=
  query_time_range store2 store2perm 100 100 demoEvent (by decide)

/- ========================================================================
   Helper lemmas for the system trace (Claim C7)
   ======================================================================== -/

theorem publish_error_elim (f : Nat → Nat → Bool) (now : Nat) (b : Bus)
    (c : CandidateEvent) (e : BusError) (b₂ : Bus)
    (rs : List (Nat × DeliveryResult))
    (h : publish f now b c = (.error e, b₂, rs)) : b₂ = b ∧ rs = [] := by
  cases hv : validate c with
  | error e' =>
    simp only [publish, hv, Prod.mk.injEq, Except.error.injEq] at h
    exact ⟨h.2.1.symm, h.2.2.symm⟩
  | ok v =>
    cases ha : b.store.append now v with
    | error e' =>
      simp only [publish, hv, ha, Prod.mk.injEq, Except.error.injEq] at h
      exact ⟨h.2.1.symm, h.2.2.symm⟩
    | ok pes =>
      obtain ⟨pe0, st0⟩ := pes
      simp only [publish, hv, ha] at h
      exact absurd h (by simp)

theorem activeSubscribersFor_mem (r : Registry) (et : String)
    (s : Subscription) :
    s ∈ activeSubscribersFor r et ↔
      s ∈ r.subs ∧ s.is_active = true ∧ matchesPattern s.event_type et = true := by
  rw [activeSubscribersFor, List.mem_filter, Bool.and_eq_true]

theorem activeSubscribersFor_sublist (r : Registry) (et : String) :
    (activeSubscribersFor r et).Sublist r.subs :=
  List.filter_sublist _

theorem inactive_not_targeted (r : Registry) (et : String)
    (sub : Subscription) (hwf : RegistryWF r) (hmem : sub ∈ r.subs)
    (hin : sub.is_active = false) :
    ∀ s ∈ activeSubscribersFor r et, s.subscription_id ≠ sub.subscription_id := by
  intro s hs heq
  rw [activeSubscribersFor, List.mem_filter, Bool.and_eq_true] at hs
  obtain ⟨hsm, hact, -⟩ := hs
  have hne : s ≠ sub := by
    intro h
    rw [h, hin] at hact
    exact Bool.noConfusion hact
  have hpw : r.subs.Pairwise
      (fun a b => a.subscription_id ≠ b.subscription_id) := hwf
  exact (hpw.forall (fun a b hab => hab.symm) hsm hmem hne) heq

theorem stepSys_charact (sys : Sys) (cmd : Cmd) (hsa : serverAssigned cmd) :
    sys.bus.store.nextId ≤ (stepSys sys cmd).bus.store.nextId ∧
    ∀ p ∈ (stepSys sys cmd).log, p ∈ sys.log ∨
      (sys.bus.store.nextId ≤ p.1 ∧
        p.1 < (stepSys sys cmd).bus.store.nextId) := by
  cases cmd with
  | reg et mid cb now => exact ⟨le_refl _, fun p hp => .inl hp⟩
  | setActive sid bb => exact ⟨le_refl _, fun p hp => .inl hp⟩
  | pub now c f =>
    rcases hp : publish f now sys.bus c with ⟨res, b₂, rs⟩
    cases res with
    | error e =>
      obtain ⟨hb, -⟩ := publish_error_elim f now sys.bus c e b₂ rs hp
      subst hb
      simp only [stepSys, hp]
      exact ⟨le_refl _, fun p hp2 => .inl hp2⟩
    | ok pe =>
      obtain ⟨-, ha, -, -⟩ := publish_ok_elim f now sys.bus c pe b₂ rs hp
      obtain ⟨hid, -, -, -, -, -, -, -, -, -, -, hni⟩ :=
        append_ok_elim _ _ _ _ _ ha
      have hce : c.event_id = none := hsa
      rw [hce] at hid hni
      simp only [Option.getD_none] at hid
      simp only [Option.isSome_none, Bool.false_eq_true, if_false] at hni
      simp only [stepSys, hp]
      constructor
      · rw [hni]
        exact Nat.le_succ _
      · intro p hp2
        rcases List.mem_append.mp hp2 with h1 | h1
        · exact .inl h1
        · right
          obtain ⟨q, hq, hq2⟩ := List.mem_map.mp h1
          rw [← hq2]
          exact ⟨hid ▸ le_refl _, by rw [hni, ← hid]; exact Nat.lt_succ_self _⟩

theorem runSys_no_eid (t : List Cmd) (sys₁ : Sys) (eid sid : Nat)
    (ht : ∀ cmd ∈ t, serverAssigned cmd)
    (hlt : eid < sys₁.bus.store.nextId)
    (hnot : (eid, sid) ∉ sys₁.log) :
    (eid, sid) ∉ (runSys sys₁ t).log := by
  induction t generalizing sys₁ with
  | nil => exact hnot
  | cons cmd t ih =>
    have hsa := ht cmd (by simp)
    obtain ⟨hmono, hlog⟩ := stepSys_charact sys₁ cmd hsa
    exact ih (stepSys sys₁ cmd) (fun c hc => ht c (by simp [hc]))
      (lt_of_lt_of_le hlt hmono)
      (fun hmem => by
        rcases hlog _ hmem with h | ⟨h1, -⟩
        · exact hnot h
        · exact absurd hlt (not_lt.mpr h1))

/- ========================================================================
   Claim C7
   ======================================================================== -/

/-- C7: `activeSubscribersFor` returns exactly the matching subscriptions
with `is_active = true`, as a sublist of the registration order; an
inactive subscription is never targeted by the dispatch of a publish; and
an event published while a subscription is inactive is never delivered to
it at any later point of the run — reactivating the subscription causes
delivery only of subsequently published events, never a backfill. -/
theorem inactive_subscription_isolation (sys : Sys) (now : Nat)
    (c : CandidateEvent) (f : Nat → Nat → Bool) (t₂ : List Cmd)
    (sub : Subscription) (pe : PersistedEvent) (b' : Bus)
    (rs : List (Nat × DeliveryResult))
    (hwfL : LogWF sys) (hwfR : RegistryWF sys.bus.registry)
    (hsub : sub ∈ sys.bus.registry.subs) (hinact : sub.is_active = false)
    (hc : c.event_id = none) (ht₂ : ∀ cmd ∈ t₂, serverAssigned cmd)
    (hpub : publish f now sys.bus c = (.ok pe, b', rs)) :
    (∀ (r : Registry) (et : String) (s : Subscription),
      (s ∈ activeSubscribersFor r et ↔
        s ∈ r.subs ∧ s.is_active = true ∧
          matchesPattern s.event_type et = true) ∧
      (activeSubscribersFor r et).Sublist r.subs) ∧
    (∀ p ∈ dispatch sys.bus.registry f pe, p.1 ≠ sub.subscription_id) ∧
    (pe.event_id, sub.subscription_id) ∉
      (runSys (stepSys sys (.pub now c f)) t₂).log := by
  obtain ⟨-, ha, -, hrs⟩ := publish_ok_elim f now sys.bus c pe b' rs hpub
  obtain ⟨hid, -, -, -, -, -, -, -, -, -, -, hni⟩ :=
    append_ok_elim _ _ _ _ _ ha
  rw [hc] at hid hni
  simp only [Option.getD_none] at hid
  simp only [Option.isSome_none, Bool.false_eq_true, if_false] at hni
  have hdisp : ∀ p ∈ dispatch sys.bus.registry f pe,
      p.1 ≠ sub.subscription_id := by
    intro p hp heq
    rw [dispatch] at hp
    obtain ⟨s, hsmem, hps⟩ := List.mem_map.mp hp
    have hne := inactive_not_targeted sys.bus.registry pe.event_type sub
      hwfR hsub hinact s hsmem
    rw [← hps] at heq
    exact hne heq
  refine ⟨fun r et s =>
    ⟨activeSubscribersFor_mem r et s, activeSubscribersFor_sublist r et⟩,
    hdisp, ?_⟩
  have hstep : stepSys sys (.pub now c f) =
      ⟨b', sys.log ++ rs.map (fun p => (pe.event_id, p.1))⟩ := by
    simp only [stepSys, hpub]
  rw [hstep]
  apply runSys_no_eid t₂ _ pe.event_id sub.subscription_id ht₂
  · show pe.event_id < b'.store.nextId
    rw [hni, hid]
    exact Nat.lt_succ_self _
  · intro hmem
    rcases List.mem_append.mp hmem with h1 | h1
    · have hlt := hwfL _ h1
      rw [hid] at hlt
      exact lt_irrefl _ hlt
    · obtain ⟨q, hq, hq2⟩ := List.mem_map.mp h1
      have hq1 : q.1 = sub.subscription_id := congrArg Prod.snd hq2
      rw [hrs] at hq
      exact hdisp q hq hq1

/-- The system state holding `bus3` and an empty delivery log. -/
def sys3 : Sys := ⟨bus3, []⟩

/-- The bus after publishing `evCand` on `bus3` (both active matching
subscriptions are delivered at once, so nothing is dead-lettered). -/
def bus3ok : Bus := ⟨store2, reg3, []⟩

/-- The dispatch results of that publish. -/
def rs3 : List (Nat × DeliveryResult) := [(0, .delivered 0), (1, .delivered 0)]

/-- The trace following the publish: the inactive subscription is
reactivated and another event is published. -/
def trace2 : List Cmd := [.setActive 2 true, .pub 102 evCand allOk]

/-- Witness for C7: with subscription 2 inactive at publish time, the
published event is never delivered to it, even after reactivation and a
further publish. -/
theorem inactive_subscription_isolation_witness :
    (∀ (r : Registry) (et : String) (s : Subscription),
      (s ∈ activeSubscribersFor r et ↔
        s ∈ r.subs ∧ s.is_active = true ∧
          matchesPattern s.event_type et = true) ∧
      (activeSubscribersFor r et).Sublist r.subs) ∧
    (∀ p ∈ dispatch sys3.bus.registry allOk demoEvent2,
      p.1 ≠ subC.subscription_id) ∧
    (demoEvent2.event_id, subC.subscription_id) ∉
      (runSys (stepSys sys3 (.pub 101 evCand allOk)) trace2).log :=
  inactive_subscription_isolation sys3 101 evCand allOk trace2 subC
    demoEvent2 bus3ok rs3
    (fun p hp => absurd hp (by simp [sys3]))
    (by
      have : reg3.subs.Pairwise
          (fun a b => a.subscription_id ≠ b.subscription_id) := by
        unfold reg3 subA subB subC
        decide
      exact this)
    (by decide)
    (by rfl)
    (by rfl)
    (by
      intro cmd hcmd
      rcases List.mem_cons.mp hcmd with rfl | hcmd
      · trivial
      · rcases List.mem_cons.mp hcmd with rfl | hcmd
        · rfl
        · exact absurd hcmd (by simp))
    (by rfl)
